import Mathlib

/-!
Shallow embedding of `src/json_to_images.py` (atkirtland/arc-editor).

The script reads one ARC puzzle JSON document and composes four images
(puzzle, examples, test, answer).  We model:
  * a grid as a list of rows of integer color indices (JSON `.get(key, [])`
    defaults absent grids to the empty list, so absence is modelled by `[]`);
  * the abstract canvas as the list of drawing primitives issued against it
    (filled/outlined rectangles and text labels), together with the computed
    canvas dimensions;
  * each composition function as an `Except String Img`, the `String` being
    the `ValueError` message raised in the source;
  * the post-parse part of `main` as a function from the parsed document to
    which compositions were attempted and the process exit code.
All pixel arithmetic in the source is on non-negative Python ints and is
modelled with `Nat`; the single subtraction (`output_label_y =
test_output_y - LABEL_HEIGHT`, line 235) only ever applies to a value that
is at least `MARGIN + 4 * LABEL_HEIGHT`, which the alignment theorem makes
explicit.
-/

namespace ArcEditor

/-- A grid: ordered rows of integer color indices (absent grid = `[]`). -/
abbrev Grid := List (List Int)

/-- One `train` or `test` entry: `example.get("input", [])` /
`example.get("output", [])`. -/
structure Pair where
  input : Grid
  output : Grid
deriving DecidableEq

instance : Inhabited Pair := ⟨⟨[], []⟩⟩

/-- The parsed document: `data.get("train", [])`, `data.get("test", [])`. -/
structure Document where
  train : List Pair
  test : List Pair
deriving DecidableEq

/-- An RGB triple. -/
abbrev RGB := Nat × Nat × Nat

/-- `ARC_COLORS` dict (lines 16-27): the ten valid color indices. -/
def ARC_COLORS (id : Int) : Option RGB :=
  if id = 0 then some (0, 0, 0)
  else if id = 1 then some (0, 116, 217)
  else if id = 2 then some (255, 65, 54)
  else if id = 3 then some (46, 204, 64)
  else if id = 4 then some (255, 220, 0)
  else if id = 5 then some (170, 170, 170)
  else if id = 6 then some (240, 18, 190)
  else if id = 7 then some (255, 133, 27)
  else if id = 8 then some (127, 219, 255)
  else if id = 9 then some (128, 0, 0)
  else none

/-- `ARC_COLORS.get(color_id, ARC_COLORS[0])` (line 47); the fallback
`ARC_COLORS[0]` is `(0, 0, 0)`. -/
def arcColor (id : Int) : RGB :=
  (ARC_COLORS id).getD (0, 0, 0)

def CELL_SIZE : Nat := 20
def GRID_PADDING : Nat := 0
def GRID_SPACING : Nat := 20
def LABEL_HEIGHT : Nat := 30
def MARGIN : Nat := 20

/-- A drawing primitive issued against the canvas: a filled, outlined
rectangle `[x0, y0, x1, y1]` or a text label. -/
inductive DrawOp where
  | rect (x0 y0 x1 y1 : Nat) (fill outline : RGB)
  | text (x y : Nat) (s : String) (fill : RGB)
deriving DecidableEq

/-- A composed image: canvas dimensions plus the draw calls made on it, in
order. -/
structure Img where
  width : Nat
  height : Nat
  ops : List DrawOp
deriving DecidableEq

/-- The color resolved for cell `(y, x)` of a grid (lines 46-47):
`grid[y][x]` when in bounds, else the defensive fallback index `0`, then
looked up through `ARC_COLORS` with default `ARC_COLORS[0]`. -/
def cellColor (grid : Grid) (y x : Nat) : RGB :=
  let color_id : Int :=
    if y < grid.length ∧ x < (grid.getD y []).length then (grid.getD y []).getD x 0
    else 0
  arcColor color_id

/-- `draw_grid` (lines 36-58) as the list of rectangles it draws: rows
`0..height-1` by columns `0..width-1` with `height = len(grid)` and
`width = len(grid[0])`, each filled with the resolved cell color and
outlined `(100, 100, 100)`. -/
def draw_grid (grid : Grid) (x_offset y_offset cell_size grid_padding : Nat) : List DrawOp :=
  if grid = [] then []
  else
    (List.range grid.length).flatMap (fun y =>
      (List.range (grid.headD []).length).map (fun x =>
        DrawOp.rect
          (x_offset + x * (cell_size + grid_padding))
          (y_offset + y * (cell_size + grid_padding))
          (x_offset + x * (cell_size + grid_padding) + cell_size - 1)
          (y_offset + y * (cell_size + grid_padding) + cell_size - 1)
          (cellColor grid y x) (100, 100, 100)))

/-- `draw_blank_grid` (lines 61-74): `width × height` white cells outlined
`(200, 200, 200)`; it takes only dimensions and never reads any grid. -/
def draw_blank_grid (width height x_offset y_offset cell_size grid_padding : Nat) : List DrawOp :=
  (List.range height).flatMap (fun y =>
    (List.range width).map (fun x =>
      DrawOp.rect
        (x_offset + x * (cell_size + grid_padding))
        (y_offset + y * (cell_size + grid_padding))
        (x_offset + x * (cell_size + grid_padding) + cell_size - 1)
        (y_offset + y * (cell_size + grid_padding) + cell_size - 1)
        (255, 255, 255) (200, 200, 200)))

/-- `get_grid_size` (lines 77-81): `(0, 0)` for an empty grid, else
`(len(grid[0]), len(grid))`. -/
def get_grid_size (grid : Grid) : Nat × Nat :=
  if grid = [] then (0, 0)
  else ((grid.headD []).length, grid.length)

/-- Combined width of one training pair's row: input + spacing + output
(lines 106-110 / 271-275). -/
def pairGridWidth (p : Pair) : Nat :=
  (get_grid_size p.input).1 * (CELL_SIZE + GRID_PADDING) + GRID_SPACING
    + (get_grid_size p.output).1 * (CELL_SIZE + GRID_PADDING)

/-- `grid_height = max(input_h, output_h) * (CELL_SIZE + GRID_PADDING)`
(line 111 / 276). -/
def pairGridHeight (p : Pair) : Nat :=
  max (get_grid_size p.input).2 (get_grid_size p.output).2 * (CELL_SIZE + GRID_PADDING)

/-- Running maximum `examples_width` accumulated by the train loop
(lines 93, 113 / 258, 278). -/
def examplesWidth (train : List Pair) : Nat :=
  train.foldl (fun acc p => max acc (pairGridWidth p)) 0

/-- Running sum `examples_height` accumulated by the train loop
(lines 94, 124-126 / 259, 289-291). -/
def examplesHeight (train : List Pair) : Nat :=
  train.foldl (fun acc p => acc + (pairGridHeight p + LABEL_HEIGHT * 2 + GRID_SPACING)) 0

/-- One record of `train_info` (lines 114-123 / 279-288). -/
structure TrainInfo where
  index : Nat
  input : Grid
  output : Grid
  input_size : Nat × Nat
  output_size : Nat × Nat
  height : Nat
deriving DecidableEq

def mkTrainInfo (i : Nat) (ex : Pair) : TrainInfo :=
  { index := i
    input := ex.input
    output := ex.output
    input_size := get_grid_size ex.input
    output_size := get_grid_size ex.output
    height := pairGridHeight ex }

/-- `train_info` built by `for i, example in enumerate(train)`, with the
starting index made explicit. -/
def trainInfo : Nat → List Pair → List TrainInfo
  | _, [] => []
  | i, ex :: rest => mkTrainInfo i ex :: trainInfo (i + 1) rest

/-- The draw calls of one iteration of the train-drawing loop
(lines 179-209 / 302-328), entered with vertical cursor `y_pos`:
example label, "Input" label, input grid, "Output" label, output grid.
The input grid is drawn at `(MARGIN, y_pos + 2*LABEL_HEIGHT)` and the
output grid at `(output_x, y_pos + 2*LABEL_HEIGHT)`. -/
def stepOps (info : TrainInfo) (y_pos : Nat) : List DrawOp :=
  let input_x := MARGIN
  let output_x := input_x + info.input_size.1 * (CELL_SIZE + GRID_PADDING) + GRID_SPACING
  [DrawOp.text MARGIN y_pos (String.append ("Example ") (toString (info.index + 1))) (0, 0, 0),
   DrawOp.text input_x (y_pos + LABEL_HEIGHT) ("Input") (0, 0, 0)]
  ++ draw_grid info.input input_x (y_pos + LABEL_HEIGHT + LABEL_HEIGHT) CELL_SIZE GRID_PADDING
  ++ ([DrawOp.text output_x (y_pos + LABEL_HEIGHT) ("Output") (0, 0, 0)]
  ++ draw_grid info.output output_x (y_pos + LABEL_HEIGHT + LABEL_HEIGHT) CELL_SIZE GRID_PADDING)

/-- The train-drawing loop (lines 177-209): returns the accumulated draw
calls, the final cursor, and `example2_output_y` — set to the output grid's
vertical offset of the entry with `index == 1` (lines 205-207).  The
examples-only composition runs the same loop body without the tracking
(lines 301-328); its draw calls coincide. -/
def drawTrain : List TrainInfo → Nat → Option Nat → List DrawOp × Nat × Option Nat
  | [], y_pos, e2y => ([], y_pos, e2y)
  | info :: rest, y_pos, e2y =>
    let ops := stepOps info y_pos
    let e2y' := if info.index = 1 then some (y_pos + LABEL_HEIGHT + LABEL_HEIGHT) else e2y
    let r := drawTrain rest (y_pos + LABEL_HEIGHT + LABEL_HEIGHT + info.height + GRID_SPACING) e2y'
    (ops ++ r.1, r.2)

/-- `example2_output_y` as produced by the puzzle composition's train loop,
starting from cursor `MARGIN` with the tracker unset (lines 177-178). -/
def example2_output_y (train : List Pair) : Option Nat :=
  (drawTrain (trainInfo 0 train) MARGIN none).2.2

/-- The `test_info` record (lines 131-150): present iff the test sequence
is non-empty; output dimensions come from the test output when it is
non-empty (truthy), else from the test input (lines 136-140). -/
structure TestInfo where
  input : Grid
  output : Grid
  input_size : Nat × Nat
  output_size : Nat × Nat
  input_height : Nat
  output_height : Nat
deriving DecidableEq

def testInfo (test : List Pair) : Option TestInfo :=
  match test with
  | [] => none
  | t :: _ =>
    let s := get_grid_size t.input
    let os := if t.output ≠ [] then get_grid_size t.output else s
    some
      { input := t.input
        output := t.output
        input_size := s
        output_size := os
        input_height := s.2 * (CELL_SIZE + GRID_PADDING)
        output_height := os.2 * (CELL_SIZE + GRID_PADDING) }

/-- `test_width = max(test_w, output_w) * (CELL_SIZE + GRID_PADDING)`
(line 142); `0` when there is no test pair (line 130). -/
def testWidth (test : List Pair) : Nat :=
  match testInfo test with
  | none => 0
  | some ti => max ti.input_size.1 ti.output_size.1 * (CELL_SIZE + GRID_PADDING)

/-- `left_column_width = examples_width + 2 * MARGIN` (line 153). -/
def left_column_width (d : Document) : Nat :=
  examplesWidth d.train + 2 * MARGIN

/-- `column_spacing = GRID_SPACING * 2` (line 155). -/
def column_spacing : Nat := GRID_SPACING * 2

/-- `right_column_width = test_width + 2 * MARGIN if test_info else 0`
(line 154). -/
def right_column_width (d : Document) : Nat :=
  match testInfo d.test with
  | none => 0
  | some _ => testWidth d.test + 2 * MARGIN

/-- `test_column_height` (lines 160-169): the stacked test-column formula
label + label + input grid + spacing + label + output grid. -/
def test_column_height (d : Document) : Nat :=
  match testInfo d.test with
  | none => 0
  | some ti =>
    LABEL_HEIGHT + LABEL_HEIGHT + ti.input_height + GRID_SPACING + LABEL_HEIGHT
      + ti.output_height

/-- `img_width = left_column_width + column_spacing + right_column_width`
(line 157). -/
def puzzle_img_width (d : Document) : Nat :=
  left_column_width d + column_spacing + right_column_width d

/-- `img_height = max(examples_height, test_column_height) + MARGIN`
(line 171). -/
def puzzle_img_height (d : Document) : Nat :=
  max (examplesHeight d.train) (test_column_height d) + MARGIN

/-- The vertical offset at which the puzzle composition draws the blank
test output grid (lines 231-245): `example2_output_y` when it was set,
else stacked below the test input. -/
def puzzleBlankY (ti : TestInfo) (e2y : Option Nat) : Nat :=
  match e2y with
  | some e => e
  | none => MARGIN + LABEL_HEIGHT + LABEL_HEIGHT + ti.input_height + GRID_SPACING + LABEL_HEIGHT

/-- The vertical offset of the puzzle composition's test "Output" label
(lines 234-236 aligned case: one label height above the aligned grid;
lines 238-240 fallback case). -/
def puzzleOutputLabelY (ti : TestInfo) (e2y : Option Nat) : Nat :=
  match e2y with
  | some e => e - LABEL_HEIGHT
  | none => MARGIN + LABEL_HEIGHT + LABEL_HEIGHT + ti.input_height + GRID_SPACING

/-- The draw calls of the puzzle composition's test column (lines 212-245):
"Test" and "Input" labels, test input grid, "Output" label, blank output
grid of the test output's dimensions. -/
def puzzleTestOps (ti : TestInfo) (test_x : Nat) (e2y : Option Nat) : List DrawOp :=
  [DrawOp.text test_x MARGIN ("Test") (0, 0, 0),
   DrawOp.text test_x (MARGIN + LABEL_HEIGHT) ("Input") (0, 0, 0)]
  ++ draw_grid ti.input test_x (MARGIN + LABEL_HEIGHT + LABEL_HEIGHT) CELL_SIZE GRID_PADDING
  ++ ([DrawOp.text test_x (puzzleOutputLabelY ti e2y) ("Output") (0, 0, 0)]
  ++ draw_blank_grid ti.output_size.1 ti.output_size.2 test_x (puzzleBlankY ti e2y)
       CELL_SIZE GRID_PADDING)

/-- `create_puzzle_image` (lines 84-247). -/
def create_puzzle_image (data : Document) : Except String Img :=
  if data.train = [] ∧ data.test = [] then Except.error ("No train or test data found")
  else
    let r := drawTrain (trainInfo 0 data.train) MARGIN none
    let testOpsL :=
      match testInfo data.test with
      | none => []
      | some ti => puzzleTestOps ti (left_column_width data + column_spacing + MARGIN) r.2.2
    Except.ok ⟨puzzle_img_width data, puzzle_img_height data, r.1 ++ testOpsL⟩

/-- The vertical start offset of the blank test output grid in the puzzle
composition (`none` when there is no test pair, so no test column is
drawn). -/
def puzzle_blank_output_y (d : Document) : Option Nat :=
  match testInfo d.test with
  | none => none
  | some ti => some (puzzleBlankY ti (example2_output_y d.train))

/-- The vertical offset of the test column's "Output" label in the puzzle
composition. -/
def puzzle_output_label_y (d : Document) : Option Nat :=
  match testInfo d.test with
  | none => none
  | some ti => some (puzzleOutputLabelY ti (example2_output_y d.train))

/-- The horizontal offset at which the puzzle composition draws the test
column's content: `test_x = left_column_width + column_spacing + MARGIN`
(line 213); `none` when there is no test pair. -/
def puzzle_test_x (d : Document) : Option Nat :=
  match testInfo d.test with
  | none => none
  | some _ => some (left_column_width d + column_spacing + MARGIN)

/-- `create_examples_image` (lines 250-330): the same train loop as the
puzzle composition (without the Example-2 tracking, which affects no draw
call), on a canvas sized to the left column alone. -/
def create_examples_image (data : Document) : Except String Img :=
  if data.train = [] then Except.error ("No train data found")
  else
    let r := drawTrain (trainInfo 0 data.train) MARGIN none
    Except.ok
      ⟨examplesWidth data.train + 2 * MARGIN, examplesHeight data.train + MARGIN, r.1⟩

/-- `create_test_image` (lines 333-394). -/
def create_test_image (data : Document) : Except String Img :=
  match data.test with
  | [] => Except.error ("No test data found")
  | t :: _ =>
    if t.input = [] then Except.error ("No test input found")
    else
      let s := get_grid_size t.input
      let os := if t.output ≠ [] then get_grid_size t.output else s
      let input_height := s.2 * (CELL_SIZE + GRID_PADDING)
      let output_height := os.2 * (CELL_SIZE + GRID_PADDING)
      let img_width := max s.1 os.1 * (CELL_SIZE + GRID_PADDING) + 2 * MARGIN
      let img_height :=
        LABEL_HEIGHT + LABEL_HEIGHT + input_height + GRID_SPACING + LABEL_HEIGHT
          + output_height + MARGIN
      Except.ok
        ⟨img_width, img_height,
         [DrawOp.text MARGIN MARGIN ("Test") (0, 0, 0),
          DrawOp.text MARGIN (MARGIN + LABEL_HEIGHT) ("Input") (0, 0, 0)]
         ++ draw_grid t.input MARGIN (MARGIN + LABEL_HEIGHT + LABEL_HEIGHT)
              CELL_SIZE GRID_PADDING
         ++ ([DrawOp.text MARGIN
                (MARGIN + LABEL_HEIGHT + LABEL_HEIGHT + input_height + GRID_SPACING)
                ("Output") (0, 0, 0)]
         ++ draw_blank_grid os.1 os.2 MARGIN
              (MARGIN + LABEL_HEIGHT + LABEL_HEIGHT + input_height + GRID_SPACING
                + LABEL_HEIGHT)
              CELL_SIZE GRID_PADDING)⟩

/-- `create_answer_image` (lines 397-425). -/
def create_answer_image (data : Document) : Except String Img :=
  match data.test with
  | [] => Except.error ("No test data found")
  | t :: _ =>
    if t.output = [] then Except.error ("No test output found")
    else
      let s := get_grid_size t.output
      Except.ok
        ⟨s.1 * (CELL_SIZE + GRID_PADDING) + 2 * MARGIN,
         s.2 * (CELL_SIZE + GRID_PADDING) + LABEL_HEIGHT + 2 * MARGIN,
         DrawOp.text MARGIN MARGIN ("Test Output") (0, 0, 0)
           :: draw_grid t.output MARGIN (MARGIN + LABEL_HEIGHT) CELL_SIZE GRID_PADDING⟩

/-- Whether an `Except` result is a success. -/
def exceptOk {α : Type} : Except String α → Bool
  | Except.ok _ => true
  | Except.error _ => false

/-- Outcome of one run of `main` after the document is parsed. -/
structure RunResult where
  attempted_puzzle : Bool
  attempted_examples : Bool
  attempted_test : Bool
  attempted_answer : Bool
  exit_code : Nat
deriving DecidableEq

/-- The post-parse behavior of `main` (lines 461-503).  `sys.exit(1)` in
the puzzle/examples handlers terminates the process, so later compositions
are not reached.  Every failure a composition can raise in this model is a
`ValueError` (the `NoData` condition), which for the test and answer images
is caught, warned about and skipped without exiting; the source's separate
fatal handler for non-`ValueError` answer failures has no inhabitant
here. -/
def runMain (data : Document) : RunResult :=
  match create_puzzle_image data with
  | Except.error _ => ⟨true, false, false, false, 1⟩
  | Except.ok _ =>
    match create_examples_image data with
    | Except.error _ => ⟨true, true, false, false, 1⟩
    | Except.ok _ =>
      ⟨true, true, true, true, 0⟩

/-- A document on which `main` fails fatally at the examples step although
the test and answer compositions would succeed. -/
def dC3 : Document := ⟨[], [⟨[[1]], [[1]]⟩]⟩

/-- A document whose aligned blank test output grid extends below the
computed canvas: two 1x1 training pairs, a 1x1 test input and a 10-row
test output. -/
def D10 : Document :=
  ⟨[⟨[[1]], [[1]]⟩, ⟨[[1]], [[1]]⟩],
   [⟨[[1]], [[0], [0], [0], [0], [0], [0], [0], [0], [0], [0]]⟩]⟩

/-- The bottom edge `y1` of a rectangle draw call (text labels: 0). -/
def rectBottom : DrawOp → Nat
  | DrawOp.rect _ _ _ y1 _ _ => y1
  | DrawOp.text _ _ _ _ => 0

/-- The image of a successful composition (a dummy empty image on
failure). -/
def imgOf : Except String Img → Img
  | Except.ok i => i
  | Except.error _ => ⟨0, 0, []⟩

/-! ### Helper lemmas -/

/-- Every record produced by `trainInfo n ts` carries an index at least `n`. -/
theorem trainInfo_index_ge (ts : List Pair) :
    ∀ (n : Nat), ∀ i ∈ trainInfo n ts, n ≤ i.index := by
  induction ts with
  | nil => intro n i hi; simp [trainInfo] at hi
  | cons p ps ih =>
    intro n i hi
    simp only [trainInfo, List.mem_cons] at hi
    rcases hi with h | h
    · subst h; simp [mkTrainInfo]
    · have := ih (n + 1) i h; omega

/-- The train loop leaves the Example-2 tracker unchanged over entries whose
index is not `1`. -/
theorem drawTrain_e2y_skip (infos : List TrainInfo) :
    ∀ (y : Nat) (e : Option Nat), (∀ i ∈ infos, i.index ≠ 1) →
      (drawTrain infos y e).2.2 = e := by
  induction infos with
  | nil => intro y e _; rfl
  | cons i is ih =>
    intro y e h
    have hi : i.index ≠ 1 := h i (by simp)
    simp only [drawTrain, if_neg hi]
    exact ih _ _ (fun j hj => h j (by simp [hj]))

/-- With fewer than two training pairs the Example-2 tracker is never set. -/
theorem example2_output_y_short (train : List Pair) (h : train.length < 2) :
    example2_output_y train = none := by
  match train with
  | [] => rfl
  | [p] => rfl
  | p :: q :: qs => simp at h; omega

/-- With at least two training pairs the tracker records the output-grid
offset of the second pair: the cursor after pair 1's block, plus the pair
label and the sub-label row. -/
theorem example2_output_y_two (p0 p1 : Pair) (ts : List Pair) :
    example2_output_y (p0 :: p1 :: ts) =
      some (MARGIN + LABEL_HEIGHT + LABEL_HEIGHT + pairGridHeight p0 + GRID_SPACING
        + LABEL_HEIGHT + LABEL_HEIGHT) := by
  unfold example2_output_y
  simp only [trainInfo, drawTrain, mkTrainInfo]
  norm_num
  exact drawTrain_e2y_skip _ _ _
    (fun i hi => by have := trainInfo_index_ge ts 2 i hi; omega)

/-- Two grids with the same row-length profile are empty together. -/
theorem nil_iff_of_rowLens (o1 o2 : Grid)
    (h : o1.map List.length = o2.map List.length) : o1 = [] ↔ o2 = [] := by
  cases o1 <;> cases o2 <;> simp_all

/-- `get_grid_size` depends only on the row-length profile. -/
theorem get_grid_size_congr (o1 o2 : Grid)
    (h : o1.map List.length = o2.map List.length) :
    get_grid_size o1 = get_grid_size o2 := by
  cases o1 with
  | nil => cases o2 with
    | nil => rfl
    | cons r rs => simp at h
  | cons r rs =>
    cases o2 with
    | nil => simp at h
    | cons r2 rs2 =>
      simp only [List.map_cons, List.cons.injEq] at h
      have hlen : rs.length = rs2.length := by
        have := congrArg List.length h.2; simpa using this
      simp [get_grid_size, h.1, hlen]

/-- The dimension source for the blank test output (real output when
present, else the input) depends only on the output's row-length profile. -/
theorem blankDims_congr (s : Nat × Nat) (o1 o2 : Grid)
    (h : o1.map List.length = o2.map List.length) :
    (if o1 ≠ [] then get_grid_size o1 else s)
      = (if o2 ≠ [] then get_grid_size o2 else s) := by
  by_cases h1 : o1 = []
  · have h2 : o2 = [] := (nil_iff_of_rowLens o1 o2 h).mp h1
    simp [h1, h2]
  · have h2 : o2 ≠ [] := fun hc => h1 ((nil_iff_of_rowLens o1 o2 h).mpr hc)
    simp [h1, h2, get_grid_size_congr o1 o2 h]

/-- The answer composition succeeds exactly when a first test pair exists
and its output is a present, non-empty grid. -/
theorem answer_ok_iff (d : Document) :
    exceptOk (create_answer_image d) = true ↔
      ∃ q qs, d.test = q :: qs ∧ q.output ≠ [] := by
  unfold create_answer_image
  cases h : d.test with
  | nil => simp [exceptOk, h]
  | cons t ts =>
    by_cases ho : t.output = [] <;> simp [exceptOk, ho, h]

/-- The test composition succeeds exactly when a first test pair exists and
its input is a present, non-empty grid. -/
theorem test_ok_iff (d : Document) :
    exceptOk (create_test_image d) = true ↔
      ∃ q qs, d.test = q :: qs ∧ q.input ≠ [] := by
  unfold create_test_image
  cases h : d.test with
  | nil => simp [exceptOk, h]
  | cons t ts =>
    by_cases hi : t.input = [] <;> simp [exceptOk, hi, h]

/-! ### Claims -/

/-- C2: `get_grid_size` returns `(0, 0)` for an empty grid and otherwise
`(length of the first row, number of rows)`; it is a total function of the
grid, so ragged rows are tolerated and only the first row's length is used
for the width. -/
theorem get_grid_size_spec (g : Grid) :
    (g = [] → get_grid_size g = (0, 0))
    ∧ (g ≠ [] → get_grid_size g = ((g.headD []).length, g.length)) := by
  constructor
  · intro h; simp [get_grid_size, h]
  · intro h; simp [get_grid_size, h]

/-- C2 witness: a ragged grid whose second row is shorter than the first
still yields (first-row length, row count) = (3, 2). -/
theorem get_grid_size_spec_witness :
    ([[1, 2, 3], [4]] : Grid) ≠ [] ∧ get_grid_size [[1, 2, 3], [4]] = (3, 2) :=
  ⟨by decide, (get_grid_size_spec [[1, 2, 3], [4]]).2 (by decide)⟩

/-- C5: the puzzle composition fails (with the `NoData` message) exactly
when both the train and the test sequences are empty. -/
theorem puzzle_noData_iff (d : Document) :
    (exceptOk (create_puzzle_image d) = false ↔ d.train = [] ∧ d.test = [])
    ∧ (d.train = [] ∧ d.test = [] →
        create_puzzle_image d = Except.error ("No train or test data found")) := by
  constructor
  · unfold create_puzzle_image
    by_cases h : d.train = [] ∧ d.test = [] <;> simp [h, exceptOk]
  · intro h
    unfold create_puzzle_image
    simp [h]

/-- C5 witness: the empty document fails with `NoData`; a document whose
test sequence is non-empty does not. -/
theorem puzzle_noData_iff_witness :
    create_puzzle_image ⟨[], []⟩ = Except.error ("No train or test data found")
    ∧ exceptOk (create_puzzle_image ⟨[], [⟨[[1]], []⟩]⟩) = true := by
  refine ⟨(puzzle_noData_iff ⟨[], []⟩).2 ⟨rfl, rfl⟩, ?_⟩
  have h := (puzzle_noData_iff ⟨[], [⟨[[1]], []⟩]⟩).1
  cases hv : exceptOk (create_puzzle_image ⟨[], [⟨[[1]], []⟩]⟩) with
  | false => exact absurd ((h.mp hv).2) (by decide)
  | true => rfl

/-- C7: any color index outside 0-9 resolves to index 0's color, which is
black; a defensive out-of-bounds read (row shorter than the first row)
also resolves to index 0's color, with no error possible (total
functions). -/
theorem color_fallback_spec :
    arcColor 0 = (0, 0, 0)
    ∧ (∀ v : Int, v < 0 ∨ 9 < v → arcColor v = arcColor 0)
    ∧ (∀ (g : Grid) (y x : Nat), y < g.length → (g.getD y []).length ≤ x →
        cellColor g y x = arcColor 0) := by
  refine ⟨rfl, ?_, ?_⟩
  · intro v hv
    have h0 : v ≠ 0 := by omega
    have h1 : v ≠ 1 := by omega
    have h2 : v ≠ 2 := by omega
    have h3 : v ≠ 3 := by omega
    have h4 : v ≠ 4 := by omega
    have h5 : v ≠ 5 := by omega
    have h6 : v ≠ 6 := by omega
    have h7 : v ≠ 7 := by omega
    have h8 : v ≠ 8 := by omega
    have h9 : v ≠ 9 := by omega
    simp [arcColor, ARC_COLORS, h0, h1, h2, h3, h4, h5, h6, h7, h8, h9]
  · intro g y x hy hx
    have hc : ¬ (y < g.length ∧ x < (g.getD y []).length) := by omega
    simp only [cellColor]
    rw [if_neg hc]

/-- C7 witness: index 17 resolves to black, and the out-of-bounds cell
(1, 1) of the ragged grid `[[1, 2], [3]]` resolves to black. -/
theorem color_fallback_spec_witness :
    ((17 : Int) < 0 ∨ 9 < (17 : Int))
    ∧ arcColor 17 = arcColor 0
    ∧ ((1 : Nat) < ([[1, 2], [3]] : Grid).length
        ∧ (([[1, 2], [3]] : Grid).getD 1 []).length ≤ 1)
    ∧ cellColor [[1, 2], [3]] 1 1 = arcColor 0 :=
  ⟨by decide, color_fallback_spec.2.1 17 (by decide), by decide,
    color_fallback_spec.2.2 [[1, 2], [3]] 1 1 (by decide) (by decide)⟩

/-- C3 counterexample: on `dC3` the examples composition fails fatally and
the process exits at once, so the test and answer compositions — which
would both succeed — are never attempted, refuting the claim that a
failure in one composition does not prevent the others from being
attempted. -/
theorem main_not_independent_cex :
    (runMain dC3).exit_code = 1
    ∧ (runMain dC3).attempted_test = false
    ∧ (runMain dC3).attempted_answer = false
    ∧ exceptOk (create_test_image dC3) = true
    ∧ exceptOk (create_answer_image dC3) = true := by
  refine ⟨rfl, rfl, rfl, rfl, rfl⟩

/-- C3 amended: the compositions are attempted in order (puzzle, examples,
test, answer); a fatal failure (puzzle or examples) terminates the process
immediately with a nonzero exit status, so the later compositions are not
attempted; the failures reachable for the test and answer compositions are
non-fatal and do not stop the run; the exit status is nonzero exactly when
a fatal failure occurred. -/
theorem main_failure_policy (d : Document) :
    ((runMain d).exit_code ≠ 0 ↔
      exceptOk (create_puzzle_image d) = false
        ∨ exceptOk (create_examples_image d) = false)
    ∧ (runMain d).attempted_puzzle = true
    ∧ ((runMain d).attempted_examples = true ↔
        exceptOk (create_puzzle_image d) = true)
    ∧ ((runMain d).attempted_test = true ↔
        exceptOk (create_puzzle_image d) = true
          ∧ exceptOk (create_examples_image d) = true)
    ∧ ((runMain d).attempted_answer = true ↔
        exceptOk (create_puzzle_image d) = true
          ∧ exceptOk (create_examples_image d) = true) := by
  unfold runMain
  cases hp : create_puzzle_image d <;> cases he : create_examples_image d <;>
    simp [exceptOk, hp, he]

/-- C3 amended witness: the policy evaluated on a complete document — all
four compositions attempted, exit status zero. -/
theorem main_failure_policy_witness :
    (runMain ⟨[⟨[[1]], [[2]]⟩], [⟨[[3]], [[4]]⟩]⟩).exit_code ≠ 0 ↔
      exceptOk (create_puzzle_image ⟨[⟨[[1]], [[2]]⟩], [⟨[[3]], [[4]]⟩]⟩) = false
        ∨ exceptOk (create_examples_image ⟨[⟨[[1]], [[2]]⟩], [⟨[[3]], [[4]]⟩]⟩) = false :=
  (main_failure_policy ⟨[⟨[[1]], [[2]]⟩], [⟨[[3]], [[4]]⟩]⟩).1

/-- C6: on a document whose first test pair has a (non-empty) input but no
output grid, the answer composition fails with `NoData` while the test
composition succeeds; in general the answer composition succeeds exactly
when the first test pair has a present non-empty output, and the test
composition exactly when it has a present non-empty input. -/
theorem answer_requires_output_test_requires_input (d : Document) (p : Pair)
    (rest : List Pair) (ht : d.test = p :: rest) (hin : p.input ≠ [])
    (hout : p.output = []) :
    create_answer_image d = Except.error ("No test output found")
    ∧ exceptOk (create_test_image d) = true
    ∧ (∀ d2 : Document,
        (exceptOk (create_answer_image d2) = true ↔
          ∃ q qs, d2.test = q :: qs ∧ q.output ≠ [])
        ∧ (exceptOk (create_test_image d2) = true ↔
          ∃ q qs, d2.test = q :: qs ∧ q.input ≠ [])) := by
  refine ⟨?_, ?_, fun d2 => ⟨answer_ok_iff d2, test_ok_iff d2⟩⟩
  · unfold create_answer_image
    rw [ht]
    simp [hout]
  · exact (test_ok_iff d).2 ⟨p, rest, ht, hin⟩

/-- C6 witness: the document with one test pair `([[3]], absent)`. -/
theorem answer_requires_output_witness :
    ((⟨[], [⟨[[3]], []⟩]⟩ : Document).test = ⟨[[3]], []⟩ :: [])
    ∧ ((⟨[[3]], []⟩ : Pair).input ≠ [])
    ∧ ((⟨[[3]], []⟩ : Pair).output = [])
    ∧ create_answer_image ⟨[], [⟨[[3]], []⟩]⟩ = Except.error ("No test output found")
    ∧ exceptOk (create_test_image ⟨[], [⟨[[3]], []⟩]⟩) = true := by
  have h := answer_requires_output_test_requires_input ⟨[], [⟨[[3]], []⟩]⟩
    ⟨[[3]], []⟩ [] rfl (by decide) rfl
  exact ⟨rfl, by decide, rfl, h.1, h.2.1⟩

/-- C9: with a test pair present, the puzzle composition draws the test
column's content at `left column width + 2 × grid spacing` from the canvas
origin plus the standard margin inset (the same inset the left column's
content carries), the canvas width splits as left column + 2 × grid
spacing + right column, and the canvas height is the maximum of the
examples column's height and the stacked test column's height, plus the
margin. -/
theorem puzzle_geometry (d : Document) (p : Pair) (rest : List Pair)
    (ht : d.test = p :: rest) :
    puzzle_test_x d = some (left_column_width d + GRID_SPACING * 2 + MARGIN)
    ∧ puzzle_img_width d = left_column_width d + GRID_SPACING * 2 + right_column_width d
    ∧ (∃ ops, create_puzzle_image d = Except.ok
        ⟨puzzle_img_width d,
         max (examplesHeight d.train) (test_column_height d) + MARGIN, ops⟩) := by
  have hguard : ¬ (d.train = [] ∧ d.test = []) := by rw [ht]; simp
  refine ⟨?_, rfl, ?_⟩
  · unfold puzzle_test_x
    rw [ht]
    simp [testInfo, column_spacing]
  · unfold create_puzzle_image
    rw [if_neg hguard]
    exact ⟨_, rfl⟩

/-- C9 witness: a document with one 1x1 train pair and a 1x1 test pair. -/
theorem puzzle_geometry_witness :
    ((⟨[⟨[[1]], [[2]]⟩], [⟨[[3]], [[4]]⟩]⟩ : Document).test = ⟨[[3]], [[4]]⟩ :: [])
    ∧ puzzle_test_x ⟨[⟨[[1]], [[2]]⟩], [⟨[[3]], [[4]]⟩]⟩
        = some (left_column_width ⟨[⟨[[1]], [[2]]⟩], [⟨[[3]], [[4]]⟩]⟩
            + GRID_SPACING * 2 + MARGIN)
    ∧ puzzle_img_width ⟨[⟨[[1]], [[2]]⟩], [⟨[[3]], [[4]]⟩]⟩
        = left_column_width ⟨[⟨[[1]], [[2]]⟩], [⟨[[3]], [[4]]⟩]⟩
            + GRID_SPACING * 2 + right_column_width ⟨[⟨[[1]], [[2]]⟩], [⟨[[3]], [[4]]⟩]⟩ := by
  have h := puzzle_geometry ⟨[⟨[[1]], [[2]]⟩], [⟨[[3]], [[4]]⟩]⟩ ⟨[[3]], [[4]]⟩ [] rfl
  exact ⟨rfl, h.1, h.2.1⟩

/-- C1: with a test pair present and at least two training pairs, the blank
test output grid is drawn at exactly the vertical offset recorded for
training Example 2's output grid (whose closed form — margin, Example 1's
two label rows, row height and spacing, then Example 2's two label rows —
is given), with the "Output" label one label height directly above it;
with fewer than two training pairs it is stacked beneath the test input:
input grid offset (margin + two label rows) + input height + grid spacing
+ one label row.  The test column's draw calls are exactly those issued
with these offsets. -/
theorem puzzle_blank_alignment (d : Document) (p : Pair) (rest : List Pair)
    (ht : d.test = p :: rest) :
    (∀ p0 p1 ts, d.train = p0 :: p1 :: ts →
      ∃ e, example2_output_y d.train = some e
        ∧ e = MARGIN + LABEL_HEIGHT + LABEL_HEIGHT + pairGridHeight p0 + GRID_SPACING
            + LABEL_HEIGHT + LABEL_HEIGHT
        ∧ puzzle_blank_output_y d = some e
        ∧ puzzle_output_label_y d = some (e - LABEL_HEIGHT)
        ∧ LABEL_HEIGHT ≤ e)
    ∧ (d.train.length < 2 →
        puzzle_blank_output_y d =
          some (MARGIN + LABEL_HEIGHT + LABEL_HEIGHT
            + (get_grid_size p.input).2 * (CELL_SIZE + GRID_PADDING) + GRID_SPACING
            + LABEL_HEIGHT))
    ∧ (∃ ti, testInfo d.test = some ti
        ∧ create_puzzle_image d = Except.ok
            ⟨puzzle_img_width d, puzzle_img_height d,
             (drawTrain (trainInfo 0 d.train) MARGIN none).1
               ++ puzzleTestOps ti (left_column_width d + column_spacing + MARGIN)
                    (example2_output_y d.train)⟩) := by
  have hguard : ¬ (d.train = [] ∧ d.test = []) := by rw [ht]; simp
  refine ⟨?_, ?_, ?_⟩
  · intro p0 p1 ts htr
    refine ⟨MARGIN + LABEL_HEIGHT + LABEL_HEIGHT + pairGridHeight p0 + GRID_SPACING
      + LABEL_HEIGHT + LABEL_HEIGHT, ?_, rfl, ?_, ?_, ?_⟩
    · rw [htr]; exact example2_output_y_two p0 p1 ts
    · unfold puzzle_blank_output_y
      rw [ht, htr, example2_output_y_two p0 p1 ts]
      simp [testInfo, puzzleBlankY]
    · unfold puzzle_output_label_y
      rw [ht, htr, example2_output_y_two p0 p1 ts]
      simp [testInfo, puzzleOutputLabelY]
    · simp [MARGIN, LABEL_HEIGHT]
  · intro hlen
    unfold puzzle_blank_output_y
    rw [ht, example2_output_y_short d.train hlen]
    simp [testInfo, puzzleBlankY]
  · refine ⟨⟨p.input, p.output, get_grid_size p.input,
        (if p.output ≠ [] then get_grid_size p.output else get_grid_size p.input),
        (get_grid_size p.input).2 * (CELL_SIZE + GRID_PADDING),
        (if p.output ≠ [] then get_grid_size p.output
         else get_grid_size p.input).2 * (CELL_SIZE + GRID_PADDING)⟩, ?_, ?_⟩
    · rw [ht]; rfl
    · unfold create_puzzle_image
      rw [if_neg hguard]
      rw [ht]
      rfl

/-- C1 witness: two 1x1 training pairs and a test pair align the blank
output at offset 180 with its label at 150; one training pair stacks it
beneath the 1-row test input at offset 150. -/
theorem puzzle_blank_alignment_witness :
    ((⟨[⟨[[1]], [[2]]⟩, ⟨[[3]], [[4]]⟩], [⟨[[5]], []⟩]⟩ : Document).test
        = ⟨[[5]], []⟩ :: [])
    ∧ puzzle_blank_output_y ⟨[⟨[[1]], [[2]]⟩, ⟨[[3]], [[4]]⟩], [⟨[[5]], []⟩]⟩ = some 180
    ∧ puzzle_output_label_y ⟨[⟨[[1]], [[2]]⟩, ⟨[[3]], [[4]]⟩], [⟨[[5]], []⟩]⟩ = some 150
    ∧ puzzle_blank_output_y ⟨[⟨[[1]], [[2]]⟩], [⟨[[5]], []⟩]⟩ = some 150 := by
  have h2 := (puzzle_blank_alignment ⟨[⟨[[1]], [[2]]⟩, ⟨[[3]], [[4]]⟩], [⟨[[5]], []⟩]⟩
    ⟨[[5]], []⟩ [] rfl).1 ⟨[[1]], [[2]]⟩ ⟨[[3]], [[4]]⟩ [] rfl
  have h1 := (puzzle_blank_alignment ⟨[⟨[[1]], [[2]]⟩], [⟨[[5]], []⟩]⟩
    ⟨[[5]], []⟩ [] rfl).2.1 (by decide)
  obtain ⟨e, he, hf, hb, hl, _⟩ := h2
  have he180 : e = 180 := by
    rw [hf]
    decide
  refine ⟨rfl, ?_, ?_, ?_⟩
  · rw [hb, he180]
  · rw [hl, he180]
    decide
  · rw [h1]
    decide

/-- Unfolding `testInfo` on a non-empty test sequence. -/
theorem testInfo_cons (t : Pair) (ts : List Pair) :
    testInfo (t :: ts) = some
      ⟨t.input, t.output, get_grid_size t.input,
       (if t.output ≠ [] then get_grid_size t.output else get_grid_size t.input),
       (get_grid_size t.input).2 * (CELL_SIZE + GRID_PADDING),
       (if t.output ≠ [] then get_grid_size t.output
        else get_grid_size t.input).2 * (CELL_SIZE + GRID_PADDING)⟩ := rfl

/-- The puzzle composition's test-column draw calls read only the test
input, the output dimensions and the input height — never the output
grid itself. -/
theorem puzzleTestOps_congr (ti1 ti2 : TestInfo) (x : Nat) (e : Option Nat)
    (hi : ti1.input = ti2.input) (hos : ti1.output_size = ti2.output_size)
    (hih : ti1.input_height = ti2.input_height) :
    puzzleTestOps ti1 x e = puzzleTestOps ti2 x e := by
  unfold puzzleTestOps puzzleOutputLabelY puzzleBlankY
  rw [hi, hos, hih]

/-- The test composition depends on the first test pair's output only
through its row-length profile. -/
theorem create_test_image_output_congr (train : List Pair) (inp o1 o2 : Grid)
    (rest : List Pair) (h : o1.map List.length = o2.map List.length) :
    create_test_image ⟨train, ⟨inp, o1⟩ :: rest⟩
      = create_test_image ⟨train, ⟨inp, o2⟩ :: rest⟩ := by
  unfold create_test_image
  dsimp only
  by_cases hi : inp = []
  · simp [hi]
  · rw [if_neg hi, if_neg hi, blankDims_congr (get_grid_size inp) o1 o2 h]

/-- C4: neither the puzzle image nor the test image depends on the cell
values of the test output grid: two documents that differ only in the
first test pair's output cells (same row-length profile) produce identical
puzzle compositions and identical test compositions. -/
theorem puzzle_independent_of_answer_cells (train : List Pair) (inp o1 o2 : Grid)
    (rest : List Pair) (h : o1.map List.length = o2.map List.length) :
    create_puzzle_image ⟨train, ⟨inp, o1⟩ :: rest⟩
      = create_puzzle_image ⟨train, ⟨inp, o2⟩ :: rest⟩
    ∧ create_test_image ⟨train, ⟨inp, o1⟩ :: rest⟩
      = create_test_image ⟨train, ⟨inp, o2⟩ :: rest⟩ := by
  refine ⟨?_, create_test_image_output_congr train inp o1 o2 rest h⟩
  have hos := blankDims_congr (get_grid_size inp) o1 o2 h
  unfold create_puzzle_image puzzle_img_width puzzle_img_height left_column_width
    right_column_width test_column_height testWidth
  dsimp only
  simp only [List.cons_ne_nil, and_false, if_false]
  rw [testInfo_cons, testInfo_cons]
  dsimp only
  rw [hos]
  have hB := puzzleTestOps_congr
    ⟨inp, o1, get_grid_size inp,
      (if o2 ≠ [] then get_grid_size o2 else get_grid_size inp),
      (get_grid_size inp).2 * (CELL_SIZE + GRID_PADDING),
      (if o2 ≠ [] then get_grid_size o2 else get_grid_size inp).2
        * (CELL_SIZE + GRID_PADDING)⟩
    ⟨inp, o2, get_grid_size inp,
      (if o2 ≠ [] then get_grid_size o2 else get_grid_size inp),
      (get_grid_size inp).2 * (CELL_SIZE + GRID_PADDING),
      (if o2 ≠ [] then get_grid_size o2 else get_grid_size inp).2
        * (CELL_SIZE + GRID_PADDING)⟩
    (examplesWidth train + 2 * MARGIN + column_spacing + MARGIN)
    ((drawTrain (trainInfo 0 train) MARGIN none).2.2)
    rfl rfl rfl
  rw [hB]

/-- C4 witness: documents differing only in the single test-output cell
value (7 versus 3). -/
theorem puzzle_independent_witness :
    (([[7]] : Grid).map List.length = ([[3]] : Grid).map List.length)
    ∧ create_puzzle_image ⟨[⟨[[1]], [[2]]⟩], [⟨[[5]], [[7]]⟩]⟩
        = create_puzzle_image ⟨[⟨[[1]], [[2]]⟩], [⟨[[5]], [[3]]⟩]⟩
    ∧ create_test_image ⟨[⟨[[1]], [[2]]⟩], [⟨[[5]], [[7]]⟩]⟩
        = create_test_image ⟨[⟨[[1]], [[2]]⟩], [⟨[[5]], [[3]]⟩]⟩ := by
  have h := puzzle_independent_of_answer_cells [⟨[[1]], [[2]]⟩] [[5]] [[7]] [[3]] []
    (by decide)
  exact ⟨by decide, h.1, h.2⟩

/-- C8: the test composition is, top to bottom at the margin: a "Test"
label, an "Input" label, the test input grid (at margin + two label
rows), a grid-spacing gap, an "Output" label, and a blank grid one label
row below it whose dimensions are the real output's when present and the
input's otherwise; and its result is unchanged by any change to the output
grid's cell values (same row-length profile), so the blank content never
reflects the real output's cells. -/
theorem test_image_layout (d : Document) (p : Pair) (rest : List Pair)
    (ht : d.test = p :: rest) (hin : p.input ≠ []) :
    create_test_image d = Except.ok
      ⟨max (get_grid_size p.input).1
          (if p.output ≠ [] then get_grid_size p.output else get_grid_size p.input).1
          * (CELL_SIZE + GRID_PADDING) + 2 * MARGIN,
       LABEL_HEIGHT + LABEL_HEIGHT
         + (get_grid_size p.input).2 * (CELL_SIZE + GRID_PADDING) + GRID_SPACING
         + LABEL_HEIGHT
         + (if p.output ≠ [] then get_grid_size p.output else get_grid_size p.input).2
             * (CELL_SIZE + GRID_PADDING)
         + MARGIN,
       [DrawOp.text MARGIN MARGIN ("Test") (0, 0, 0),
        DrawOp.text MARGIN (MARGIN + LABEL_HEIGHT) ("Input") (0, 0, 0)]
       ++ draw_grid p.input MARGIN (MARGIN + LABEL_HEIGHT + LABEL_HEIGHT)
            CELL_SIZE GRID_PADDING
       ++ ([DrawOp.text MARGIN
              (MARGIN + LABEL_HEIGHT + LABEL_HEIGHT
                + (get_grid_size p.input).2 * (CELL_SIZE + GRID_PADDING) + GRID_SPACING)
              ("Output") (0, 0, 0)]
       ++ draw_blank_grid
            (if p.output ≠ [] then get_grid_size p.output else get_grid_size p.input).1
            (if p.output ≠ [] then get_grid_size p.output else get_grid_size p.input).2
            MARGIN
            (MARGIN + LABEL_HEIGHT + LABEL_HEIGHT
              + (get_grid_size p.input).2 * (CELL_SIZE + GRID_PADDING) + GRID_SPACING
              + LABEL_HEIGHT)
            CELL_SIZE GRID_PADDING)⟩
    ∧ (∀ o2 : Grid, o2.map List.length = p.output.map List.length →
        create_test_image ⟨d.train, ⟨p.input, o2⟩ :: rest⟩ = create_test_image d) := by
  cases d with
  | mk tr te =>
    dsimp only at ht
    subst ht
    constructor
    · unfold create_test_image
      dsimp only
      rw [if_neg hin]
    · intro o2 h
      exact create_test_image_output_congr tr p.input o2 p.output rest h

/-- C8 witness: a 2-row test input with a present 1x2 output; the layout
theorem also shows the composition ignores the output's cell values. -/
theorem test_image_layout_witness :
    ((⟨[], [⟨[[1], [2]], [[3, 4]]⟩]⟩ : Document).test = ⟨[[1], [2]], [[3, 4]]⟩ :: [])
    ∧ ((⟨[[1], [2]], [[3, 4]]⟩ : Pair).input ≠ [])
    ∧ create_test_image ⟨[], [⟨[[1], [2]], [[9, 9]]⟩]⟩
        = create_test_image ⟨[], [⟨[[1], [2]], [[3, 4]]⟩]⟩ := by
  have h := test_image_layout ⟨[], [⟨[[1], [2]], [[3, 4]]⟩]⟩ ⟨[[1], [2]], [[3, 4]]⟩ []
    rfl (by decide)
  exact ⟨rfl, by decide, h.2 [[9, 9]] (by decide)⟩

/-- C10: the puzzle composition can draw cell rectangles outside the
allocated canvas: on `D10` the blank test output is aligned to Example 2's
output row at offset 180, but the canvas height — computed from the
stacked test-column formula — is 350, while the aligned 10-row blank grid
reaches down to 379, so some drawn rectangles have bottom edges at or
beyond the canvas height. -/
theorem puzzle_draw_exceeds_canvas :
    exceptOk (create_puzzle_image D10) = true
    ∧ (imgOf (create_puzzle_image D10)).height = 350
    ∧ puzzle_blank_output_y D10 = some 180
    ∧ ((imgOf (create_puzzle_image D10)).ops.any
        (fun op => decide (350 ≤ rectBottom op))) = true := by
  refine ⟨rfl, rfl, rfl, ?_⟩
  decide

end ArcEditor
